import Mathlib

/-!
Verification of the audio refinement pipeline (src/src/audio_refiner.py,
src/src/utils.py, src/src/__init__.py).

The numeric signal processing is embedded over the real numbers: a decoded
waveform is a `List ℝ` of samples.  The external noise-reduction library
(`noisereduce`) and all I/O / network effects are abstracted as parameters
(`Option`/`Except`-valued functions, `none`/`error` standing for a raised
Python exception).
-/

namespace Arcads

/-- `audio_refinement.noise_reduction` config section. -/
structure NoiseReductionConfig where
  enabled : Bool
  strength : ℝ

/-- `audio_refinement.normalization` config section. -/
structure NormalizationConfig where
  enabled : Bool
  target_db : ℝ

/-- `audio_refinement.enhancement` config section. -/
structure EnhancementConfig where
  compression : Bool
  eq_boost : Bool

/-- `audio_refinement.output` config section. -/
structure OutputConfig where
  sample_rate : ℕ
  bit_depth : ℕ

/-- The `audio_refinement` configuration dictionary. -/
structure RefinementConfig where
  noise_reduction : NoiseReductionConfig
  normalization : NormalizationConfig
  enhancement : EnhancementConfig
  output : OutputConfig

/-- The `try: body except: return original` skeleton shared by the three
refinement stages (audio_refiner.py lines 121-139, 156-188, 207-232).
`none` stands for the body raising an exception. -/
def tryStage (body : Option (List ℝ)) (orig : List ℝ) : List ℝ :=
  body.getD orig

/-- A refinement stage: an enabled-guard returning the input unchanged when
the stage is disabled, otherwise the fallible body with fallback to the
input (the common shape of `reduce_noise`, `normalize_volume`,
`enhance_voice`). -/
def guarded_stage (enabled : Bool) (body : List ℝ → Option (List ℝ))
    (audio_data : List ℝ) : List ℝ :=
  if enabled = false then audio_data else tryStage (body audio_data) audio_data

/-- `np.sqrt(np.mean(audio_data**2))` (audio_refiner.py line 162). -/
noncomputable def rms (audio_data : List ℝ) : ℝ :=
  Real.sqrt (((audio_data.map fun x => x ^ 2).sum) / audio_data.length)

/-- `np.max(np.abs(audio_data))` (audio_refiner.py line 179), with 0 for the
empty buffer. -/
noncomputable def peak (audio_data : List ℝ) : ℝ :=
  (audio_data.map fun x => |x|).foldr max 0

/-- `gain_linear = 10 ** ((target_db - current_db) / 20)` where
`current_db = 20 * log10(rms)` (audio_refiner.py lines 169-173). -/
noncomputable def gain_linear (target_db : ℝ) (audio_data : List ℝ) : ℝ :=
  (10 : ℝ) ^ ((target_db - 20 * Real.logb 10 (rms audio_data)) / 20)

/-- Body of `normalize_volume` (audio_refiner.py lines 162-184): silent
buffers are returned unchanged; otherwise the gain is applied and, when the
resulting peak exceeds 0.95, the whole buffer is rescaled so the peak is
exactly 0.95. -/
noncomputable def normalize_core (target_db : ℝ) (audio_data : List ℝ) : List ℝ :=
  if rms audio_data = 0 then audio_data
  else
    let normalized := audio_data.map fun x => x * gain_linear target_db audio_data
    if 0.95 < peak normalized then
      normalized.map fun x => x * (0.95 / peak normalized)
    else normalized

/-- `AudioRefiner.normalize_volume` (audio_refiner.py lines 141-188).  The
`target_db` argument is dead: line 157 overwrites it with the configured
`normalization.target_db` before any use, so the body only sees the
configured value.  The body is total real arithmetic, hence always `some`. -/
noncomputable def normalize_volume (cfg : RefinementConfig) (audio_data : List ℝ)
    (target_db : ℝ) : List ℝ :=
  guarded_stage cfg.normalization.enabled
    (fun y => some (normalize_core cfg.normalization.target_db y)) audio_data

/-- `AudioRefiner.reduce_noise` (audio_refiner.py lines 106-139).  The call
into the external `noisereduce` library is the parameter `nrF`; `none`
models `nr.reduce_noise` raising. -/
def reduce_noise (nrF : List ℝ → ℕ → ℝ → Option (List ℝ))
    (cfg : RefinementConfig) (audio_data : List ℝ) (sample_rate : ℕ) : List ℝ :=
  guarded_stage cfg.noise_reduction.enabled
    (fun y => nrF y sample_rate cfg.noise_reduction.strength) audio_data

/-- Per-sample hard-knee compressor applied on the mask `|x| > 0.3`
(audio_refiner.py lines 213-220; threshold 0.3 and 3.0 as divisor are the
literals in the source). -/
noncomputable def compress_sample (x : ℝ) : ℝ :=
  if 0.3 < |x| then Real.sign x * (0.3 + (|x| - 0.3) / 3) else x

/-- Body of `enhance_voice` (audio_refiner.py lines 208-228): compression
when enabled, and the `eq_boost` placeholder performs no signal change. -/
noncomputable def enhance_core (cfg : RefinementConfig) (audio_data : List ℝ) : List ℝ :=
  if cfg.enhancement.compression then audio_data.map compress_sample else audio_data

/-- `AudioRefiner.enhance_voice` (audio_refiner.py lines 190-232): guarded
on `compression or eq_boost`, body total. -/
noncomputable def enhance_voice (cfg : RefinementConfig) (audio_data : List ℝ)
    (sample_rate : ℕ) : List ℝ :=
  guarded_stage (cfg.enhancement.compression || cfg.enhancement.eq_boost)
    (fun y => some (enhance_core cfg y)) audio_data

/-- Steps 2-4 of `AudioRefiner.process_pipeline` (audio_refiner.py lines
324-331): noise reduction, then volume normalization (called with the
configured target, line 328), then voice enhancement — the refined buffer
before resampling. -/
noncomputable def refine_stages (nrF : List ℝ → ℕ → ℝ → Option (List ℝ))
    (cfg : RefinementConfig) (audio_data : List ℝ) (sample_rate : ℕ) : List ℝ :=
  enhance_voice cfg
    (normalize_volume cfg (reduce_noise nrF cfg audio_data sample_rate)
      cfg.normalization.target_db)
    sample_rate

/-- The resampling decision in `save_refined` (audio_refiner.py lines
254-261) on (buffer length, sample rate): when the rate differs from the
configured output rate, the new length is
`int(len(audio_data) * target_sr / sample_rate)` — Python `int` truncation,
i.e. floor for the nonnegative quantities involved — and the declared rate
becomes the target rate; otherwise both are unchanged. -/
def save_resample (target_sr : ℕ) (audio_len : ℕ) (sample_rate : ℕ) : ℕ × ℕ :=
  if sample_rate ≠ target_sr then (audio_len * target_sr / sample_rate, target_sr)
  else (audio_len, sample_rate)

/-- `np.iinfo(audio.array_type).max` for a signed `bits`-bit PCM format:
`2 ^ (bits - 1) - 1` (32767 for 16-bit). -/
def pcm_max (bits : ℕ) : ℤ :=
  2 ^ (bits - 1) - 1

/-- The per-sample normalization in `load_audio` (audio_refiner.py line 96):
`audio_array / np.iinfo(audio.array_type).max`. -/
def load_normalize_sample (bits : ℕ) (s : ℤ) : ℚ :=
  (s : ℚ) / (pcm_max bits : ℚ)

/-- `load_audio`'s integer-to-float normalization over a whole buffer. -/
def load_normalize (bits : ℕ) (samples : List ℤ) : List ℚ :=
  samples.map (load_normalize_sample bits)

/-- `validate_text_input` (utils.py lines 87-100).  An empty string is falsy
(`not text`), then the stripped text is checked against the length bounds;
`Except.error` models the raised `ValueError`. -/
def validate_text_input (text : String) (min_length : ℕ) (max_length : ℕ) :
    Except String String :=
  if text = "" then Except.error "Text must be a non-empty string"
  else if text.trim.length < min_length then
    Except.error "Text too short"
  else if max_length < text.trim.length then
    Except.error "Text too long"
  else Except.ok text.trim

/-- The configuration record as used by `generate_refined_audio`
(`config['paths']['raw_audio']`, `config['paths']['refined_audio']`); the
refinement section rides along for the refiner. -/
structure Config where
  raw_audio : String
  refined_audio : String
  refinement : RefinementConfig

/-- Metadata of a successful `ElevenLabsTTS.generate_and_save`
(tts_service.py lines 214-223). -/
structure TTSGenMeta where
  voice_id : String
  generation_time : ℚ
  file_size : ℕ

/-- Metadata of a successful `AudioRefiner.process_pipeline`
(audio_refiner.py lines 343-354). -/
structure RefineMeta where
  input_duration : ℚ
  output_duration : ℚ
  sample_rate : ℕ
  processing_time : ℚ
  file_size : ℕ

/-- The metadata of a successful top-level pipeline run
(src/__init__.py lines 128-139).  Wall-clock-only fields (`total_time`)
and the megabyte rounding are outside the embedding; sizes are carried in
bytes. -/
structure PipelineMeta where
  text : String
  text_length : ℕ
  voice_id : String
  generation_time : ℚ
  refinement_time : ℚ
  raw_size : ℕ
  refined_size : ℕ
  duration : ℚ
  sample_rate : ℕ

/-- The result record returned by `generate_refined_audio`
(src/__init__.py lines 124-153). -/
structure PipelineResult where
  success : Bool
  raw_audio : Option String
  refined_audio : Option String
  metadata : Option PipelineMeta
  error : Option String

/-- The effectful collaborators of `generate_refined_audio`, each modelled
as data: `Except.error` / a `false` flag stands for the corresponding
Python exception or failed result.  `load_config` is `load_config`
(utils.py 12-21), `setup` covers `setup_logging` and `setup_directories`,
`load_env` is `load_env_variables`, `tts_init` is the `ElevenLabsTTS`
constructor, `validate_api_key` the API-key network probe, `tts_generate`
the speech-generation network call plus raw-file save, and `refine` the
`AudioRefiner.process_pipeline` run on the saved file.  `now` models
`datetime.now().strftime(...)`. -/
structure PipelineEnv where
  load_config : Except String Config
  setup : Config → Except String Unit
  load_env : Except String String
  tts_init : String → Config → Except String Unit
  validate_api_key : Bool
  tts_generate : String → String → Option String → Except String TTSGenMeta
  refine : Config → String → String → Except String RefineMeta
  now : String

/-- The uniform failure record built by the top-level handler
(src/__init__.py lines 143-153). -/
def failureResult (e : String) : PipelineResult :=
  { success := false
    raw_audio := none
    refined_audio := none
    metadata := none
    error := some ("Pipeline failed: " ++ e) }

/-- The body of `generate_refined_audio` (src/__init__.py lines 45-141),
i.e. everything inside the top-level `try`; `Except.error` is a raised
exception carrying `str(e)`. -/
def generate_refined_audio_inner (env : PipelineEnv) (text : String)
    (voice_id : Option String) (output_name : Option String) :
    Except String PipelineResult :=
  match env.load_config with
  | Except.error e => Except.error e
  | Except.ok config =>
    match env.setup config with
    | Except.error e => Except.error e
    | Except.ok _ =>
      match env.load_env with
      | Except.error e => Except.error e
      | Except.ok api_key =>
        match validate_text_input text 1 5000 with
        | Except.error e => Except.error e
        | Except.ok text1 =>
          let name := output_name.getD ("audio_" ++ env.now)
          let raw_audio_path := config.raw_audio ++ "/" ++ name ++ ".mp3"
          let refined_audio_path := config.refined_audio ++ "/" ++ name ++ ".wav"
          match env.tts_init api_key config with
          | Except.error e => Except.error e
          | Except.ok _ =>
            if env.validate_api_key = false then
              Except.error "Invalid ElevenLabs API key"
            else
              match env.tts_generate text1 raw_audio_path voice_id with
              | Except.error e => Except.error ("TTS generation failed: " ++ e)
              | Except.ok tmeta =>
                match env.refine config raw_audio_path refined_audio_path with
                | Except.error e => Except.error ("Audio refinement failed: " ++ e)
                | Except.ok rmeta =>
                  Except.ok
                    { success := true
                      raw_audio := some raw_audio_path
                      refined_audio := some refined_audio_path
                      metadata := some
                        { text := text1
                          text_length := text1.length
                          voice_id := tmeta.voice_id
                          generation_time := tmeta.generation_time
                          refinement_time := rmeta.processing_time
                          raw_size := tmeta.file_size
                          refined_size := rmeta.file_size
                          duration := rmeta.output_duration
                          sample_rate := rmeta.sample_rate }
                      error := none }

/-- `generate_refined_audio` (src/__init__.py lines 25-153): the body wrapped
in the top-level exception handler converting any raised error into the
uniform failure record. -/
def generate_refined_audio (env : PipelineEnv) (text : String)
    (voice_id : Option String) (output_name : Option String) : PipelineResult :=
  match generate_refined_audio_inner env text voice_id output_name with
  | Except.ok r => r
  | Except.error e => failureResult e

/-- `quick_generate` (src/__init__.py lines 155-166): delegates with default
output name. -/
def quick_generate (env : PipelineEnv) (text : String)
    (voice_id : Option String) : PipelineResult :=
  generate_refined_audio env text voice_id none

/-- A configuration with every refinement stage disabled. -/
def cfgAllOff : RefinementConfig :=
  { noise_reduction := { enabled := false, strength := 0.5 }
    normalization := { enabled := false, target_db := -18 }
    enhancement := { compression := false, eq_boost := false }
    output := { sample_rate := 16000, bit_depth := 16 } }

/-- A configuration with normalization enabled at -20 dB. -/
def cfgNormNeg20 : RefinementConfig :=
  { noise_reduction := { enabled := false, strength := 0.5 }
    normalization := { enabled := true, target_db := -20 }
    enhancement := { compression := false, eq_boost := false }
    output := { sample_rate := 16000, bit_depth := 16 } }

/-- A configuration with normalization enabled at 0 dB. -/
def cfgNormZero : RefinementConfig :=
  { noise_reduction := { enabled := false, strength := 0.5 }
    normalization := { enabled := true, target_db := 0 }
    enhancement := { compression := false, eq_boost := false }
    output := { sample_rate := 16000, bit_depth := 16 } }

/-- A configuration with compression enabled. -/
def cfgCompress : RefinementConfig :=
  { noise_reduction := { enabled := false, strength := 0.5 }
    normalization := { enabled := false, target_db := -18 }
    enhancement := { compression := true, eq_boost := false }
    output := { sample_rate := 16000, bit_depth := 16 } }

/-- A configuration with noise reduction enabled. -/
def cfgNoise : RefinementConfig :=
  { noise_reduction := { enabled := true, strength := 0.8 }
    normalization := { enabled := false, target_db := -18 }
    enhancement := { compression := false, eq_boost := false }
    output := { sample_rate := 16000, bit_depth := 16 } }

/-- A concrete configuration record for the orchestrator. -/
def configW : Config :=
  { raw_audio := "data/raw_audio"
    refined_audio := "data/refined_audio"
    refinement := cfgAllOff }

/-- A concrete, fully succeeding effect environment. -/
def envW : PipelineEnv :=
  { load_config := Except.ok configW
    setup := fun _ => Except.ok ()
    load_env := Except.ok "key"
    tts_init := fun _ _ => Except.ok ()
    validate_api_key := true
    tts_generate := fun _ _ _ =>
      Except.ok { voice_id := "v", generation_time := 1, file_size := 1000 }
    refine := fun _ _ _ =>
      Except.ok { input_duration := 1, output_duration := 1, sample_rate := 16000
                  processing_time := 1, file_size := 2000 }
    now := "20260101_000000" }

end Arcads

namespace Arcads

/- ------------------------------------------------------------------ -/
/- Helper lemmas                                                       -/
/- ------------------------------------------------------------------ -/

lemma rms_eq_zero_of_forall_zero (xs : List ℝ) (hz : ∀ x ∈ xs, x = 0) :
    rms xs = 0 := by
  have hsum : ((xs.map fun x => x ^ 2).sum) = 0 := by
    apply List.sum_eq_zero
    intro y hy
    rcases List.mem_map.mp hy with ⟨x, hx, rfl⟩
    rw [hz x hx]
    ring
  simp [rms, hsum]

lemma peak_nil : peak ([] : List ℝ) = 0 := rfl

lemma peak_cons (x : ℝ) (xs : List ℝ) : peak (x :: xs) = max |x| (peak xs) := rfl

lemma peak_nonneg (xs : List ℝ) : 0 ≤ peak xs := by
  induction xs with
  | nil => exact le_of_eq peak_nil.symm
  | cons x xs ih =>
      rw [peak_cons]
      exact le_trans ih (le_max_right _ _)

lemma peak_map_mul (xs : List ℝ) (c : ℝ) (hc : 0 ≤ c) :
    peak (xs.map fun x => x * c) = peak xs * c := by
  induction xs with
  | nil => simp [peak_nil]
  | cons x xs ih =>
      rw [List.map_cons, peak_cons, peak_cons, ih, abs_mul, abs_of_nonneg hc,
        max_mul_of_nonneg _ _ hc]

lemma sum_sq_nonneg (xs : List ℝ) : 0 ≤ (xs.map fun x => x ^ 2).sum := by
  apply List.sum_nonneg
  intro y hy
  rcases List.mem_map.mp hy with ⟨x, _, rfl⟩
  positivity

lemma rms_nonneg (xs : List ℝ) : 0 ≤ rms xs := Real.sqrt_nonneg _

lemma rms_map_mul (xs : List ℝ) (c : ℝ) :
    rms (xs.map fun x => x * c) = rms xs * |c| := by
  unfold rms
  rw [List.length_map]
  have hsum : (((xs.map fun x => x * c).map fun x => x ^ 2).sum) =
      ((xs.map fun x => x ^ 2).sum) * c ^ 2 := by
    rw [List.map_map]
    have hfun : ((fun x => x ^ 2) ∘ fun x => x * c) = fun x : ℝ => x ^ 2 * c ^ 2 := by
      funext x
      simp [mul_pow]
    rw [hfun]
    exact List.sum_map_mul_right xs (fun x => x ^ 2) (c ^ 2)
  rw [hsum]
  have hdiv : ((xs.map fun x => x ^ 2).sum) * c ^ 2 / (xs.length : ℝ) =
      (((xs.map fun x => x ^ 2).sum) / (xs.length : ℝ)) * c ^ 2 := by
    ring
  rw [hdiv, Real.sqrt_mul (div_nonneg (sum_sq_nonneg xs) (Nat.cast_nonneg _)) (c ^ 2),
    Real.sqrt_sq_eq_abs]

lemma rms_single (x : ℝ) : rms [x] = |x| := by
  simp [rms, Real.sqrt_sq_eq_abs]

lemma gain_linear_pos (t : ℝ) (xs : List ℝ) : 0 < gain_linear t xs :=
  Real.rpow_pos_of_pos (by norm_num) _

lemma rms_mul_gain (t : ℝ) (xs : List ℝ) (hr : 0 < rms xs) :
    rms xs * gain_linear t xs = (10 : ℝ) ^ (t / 20) := by
  unfold gain_linear
  have hsub : (t - 20 * Real.logb 10 (rms xs)) / 20 =
      t / 20 - Real.logb 10 (rms xs) := by
    ring
  rw [hsub, Real.rpow_sub (by norm_num),
    Real.rpow_logb (by norm_num) (by norm_num) hr, mul_comm,
    div_mul_cancel₀ _ hr.ne']

lemma normalize_core_eq (t : ℝ) (xs : List ℝ) (hr : 0 < rms xs) :
    normalize_core t xs =
      if 0.95 < peak (xs.map fun x => x * gain_linear t xs) then
        (xs.map fun x => x * gain_linear t xs).map
          fun x => x * (0.95 / peak (xs.map fun x => x * gain_linear t xs))
      else xs.map fun x => x * gain_linear t xs := by
  unfold normalize_core
  rw [if_neg hr.ne']

lemma abs_floor_sub_round_le_one (q : ℚ) : |⌊q⌋ - round q| ≤ 1 := by
  rw [round_eq]
  have h1 : ⌊q⌋ ≤ ⌊q + 1 / 2⌋ := Int.floor_le_floor (by linarith)
  have h2 : ⌊q + 1 / 2⌋ ≤ ⌊q + 1⌋ := Int.floor_le_floor (by linarith)
  have h3 : ⌊q + (1 : ℚ)⌋ = ⌊q⌋ + 1 := Int.floor_add_one q
  rw [h3] at h2
  rw [abs_le]
  omega

/- ------------------------------------------------------------------ -/
/- Claims                                                              -/
/- ------------------------------------------------------------------ -/

/-- Claim C2, counterexample: at buffer length 2, source rate 44100 Hz and
target rate 16000 Hz, the code's `int(2 * 16000 / 44100)` is 0 while the
claimed `round(2 * 16000 / 44100)` is 1, so the resampled length is not
`round(input_length * target_rate / source_rate)`. -/
theorem save_resample_round_cex :
    (save_resample 16000 2 44100).1 = 0 ∧
    round ((2 * 16000 : ℚ) / 44100) = 1 ∧
    ((save_resample 16000 2 44100).1 : ℤ) ≠ round ((2 * 16000 : ℚ) / 44100) := by
  refine ⟨by decide, by norm_num [round_eq], ?_⟩
  have h1 : (save_resample 16000 2 44100).1 = 0 := by decide
  rw [h1]
  norm_num [round_eq]

/-- Claim C2, amended: resampling at save time is a no-op when the buffer's
rate equals the configured output rate; otherwise the declared rate becomes
the target rate and the new length is the truncation (floor) of
`input_length * target_rate / source_rate`, which is within one sample of
the spec's `round(input_length * target_rate / source_rate)`. -/
theorem save_resample_length_amended (target_sr audio_len sample_rate : ℕ) :
    (sample_rate = target_sr →
      save_resample target_sr audio_len sample_rate = (audio_len, sample_rate)) ∧
    (sample_rate ≠ target_sr →
      (save_resample target_sr audio_len sample_rate).2 = target_sr ∧
      ((save_resample target_sr audio_len sample_rate).1 : ℤ) =
        ⌊((audio_len * target_sr : ℕ) : ℚ) / (sample_rate : ℚ)⌋ ∧
      |((save_resample target_sr audio_len sample_rate).1 : ℤ) -
        round (((audio_len * target_sr : ℕ) : ℚ) / (sample_rate : ℚ))| ≤ 1) := by
  constructor
  · intro h
    simp [save_resample, h]
  · intro h
    have hsr : save_resample target_sr audio_len sample_rate =
        (audio_len * target_sr / sample_rate, target_sr) := by
      simp [save_resample, h]
    have hfloor : ((audio_len * target_sr / sample_rate : ℕ) : ℤ) =
        ⌊((audio_len * target_sr : ℕ) : ℚ) / (sample_rate : ℚ)⌋ := by
      have h1 : ⌊(((audio_len * target_sr : ℕ) : ℚ)) / ((sample_rate : ℕ) : ℚ)⌋ =
          ((audio_len * target_sr : ℕ) : ℤ) / ((sample_rate : ℕ) : ℤ) :=
        Rat.floor_natCast_div_natCast (audio_len * target_sr) sample_rate
      rw [h1, Int.natCast_div]
    rw [hsr]
    refine ⟨rfl, hfloor, ?_⟩
    rw [hfloor]
    exact abs_floor_sub_round_le_one
      (((audio_len * target_sr : ℕ) : ℚ) / (sample_rate : ℚ))

/-- Claim C2, witness for the amended theorem at length 2, 44100 Hz to
16000 Hz. -/
theorem save_resample_length_amended_witness :
    (save_resample 16000 2 44100).2 = 16000 ∧
    ((save_resample 16000 2 44100).1 : ℤ) =
      ⌊((2 * 16000 : ℕ) : ℚ) / (44100 : ℚ)⌋ ∧
    |((save_resample 16000 2 44100).1 : ℤ) -
      round (((2 * 16000 : ℕ) : ℚ) / (44100 : ℚ))| ≤ 1 :=
  (save_resample_length_amended 16000 2 44100).2 (by decide)

/-- Claim C1, amended: with normalization enabled and a non-silent input,
the output peak never exceeds 0.95; and whenever the post-gain peak does not
exceed 0.95 (so the clip-avoidance rescale does not fire), the output RMS in
dB equals the configured `target_db` exactly — hence in particular within
±0.5 dB.  (When the rescale fires, the peak is pinned to 0.95 but the RMS is
pulled below the target, which is what refutes the original claim.) -/
theorem normalize_volume_rms_peak_amended (cfg : RefinementConfig)
    (audio_data : List ℝ) (target_db : ℝ)
    (hen : cfg.normalization.enabled = true)
    (hr : 0 < rms audio_data) :
    peak (normalize_volume cfg audio_data target_db) ≤ 0.95 ∧
    (peak (audio_data.map fun x =>
        x * gain_linear cfg.normalization.target_db audio_data) ≤ 0.95 →
      20 * Real.logb 10 (rms (normalize_volume cfg audio_data target_db)) =
        cfg.normalization.target_db) := by
  have hnv : normalize_volume cfg audio_data target_db =
      normalize_core cfg.normalization.target_db audio_data := by
    simp [normalize_volume, guarded_stage, hen, tryStage]
  have hcore := normalize_core_eq cfg.normalization.target_db audio_data hr
  have hg := gain_linear_pos cfg.normalization.target_db audio_data
  have hrmsN : rms (audio_data.map fun x =>
      x * gain_linear cfg.normalization.target_db audio_data) =
      rms audio_data * gain_linear cfg.normalization.target_db audio_data := by
    rw [rms_map_mul, abs_of_pos hg]
  by_cases hpk : 0.95 < peak (audio_data.map fun x =>
      x * gain_linear cfg.normalization.target_db audio_data)
  · have hout : normalize_volume cfg audio_data target_db =
        (audio_data.map fun x =>
          x * gain_linear cfg.normalization.target_db audio_data).map
          fun x => x * (0.95 / peak (audio_data.map fun x =>
            x * gain_linear cfg.normalization.target_db audio_data)) := by
      rw [hnv, hcore, if_pos hpk]
    have hpN : (0 : ℝ) < peak (audio_data.map fun x =>
        x * gain_linear cfg.normalization.target_db audio_data) :=
      lt_trans (by norm_num) hpk
    constructor
    · rw [hout, peak_map_mul _ _ (le_of_lt (div_pos (by norm_num) hpN))]
      rw [mul_div_cancel₀ _ hpN.ne']
    · intro hle
      linarith
  · have hout : normalize_volume cfg audio_data target_db =
        audio_data.map fun x =>
          x * gain_linear cfg.normalization.target_db audio_data := by
      rw [hnv, hcore, if_neg hpk]
    constructor
    · rw [hout]
      exact not_lt.mp hpk
    · intro _
      rw [hout, hrmsN, rms_mul_gain _ _ hr,
        Real.logb_rpow (by norm_num) (by norm_num)]
      ring

lemma logb_ten_two_gt : (3 / 10 : ℝ) < Real.logb 10 2 := by
  rw [Real.lt_logb_iff_rpow_lt (by norm_num) (by norm_num)]
  by_contra hcon
  push_neg at hcon
  have h10 : ((10 : ℝ) ^ ((3 : ℝ) / 10)) ^ (10 : ℕ) = 1000 := by
    rw [← Real.rpow_natCast ((10 : ℝ) ^ ((3 : ℝ) / 10)) 10,
      ← Real.rpow_mul (by norm_num : (0 : ℝ) ≤ 10)]
    have hmul : (3 : ℝ) / 10 * ((10 : ℕ) : ℝ) = ((3 : ℕ) : ℝ) := by norm_num
    rw [hmul, Real.rpow_natCast]
    norm_num
  have hpow : (2 : ℝ) ^ (10 : ℕ) ≤ ((10 : ℝ) ^ ((3 : ℝ) / 10)) ^ (10 : ℕ) :=
    pow_le_pow_left₀ (by norm_num) hcon 10
  rw [h10] at hpow
  norm_num at hpow

lemma rms_xs0 : rms [(1 : ℝ), 0, 0, 0] = 1 / 2 := by
  have h1 : (([(1 : ℝ), 0, 0, 0].map fun x => x ^ 2).sum) /
      (([(1 : ℝ), 0, 0, 0].length : ℕ) : ℝ) = (1 / 2) ^ 2 := by
    simp
    norm_num
  unfold rms
  rw [h1, Real.sqrt_sq (by norm_num : (0 : ℝ) ≤ 1 / 2)]

lemma peak_xs0 : peak [(1 : ℝ), 0, 0, 0] = 1 := by
  rw [peak_cons, peak_cons, peak_cons, peak_cons, peak_nil, abs_one, abs_zero,
    max_self, max_self, max_self, max_eq_left (by norm_num : (0 : ℝ) ≤ 1)]

lemma gain_xs0 : gain_linear 0 [(1 : ℝ), 0, 0, 0] = 2 := by
  unfold gain_linear
  rw [rms_xs0]
  have hlog : Real.logb 10 ((1 : ℝ) / 2) = -Real.logb 10 2 := by
    rw [show (1 : ℝ) / 2 = (2 : ℝ)⁻¹ by norm_num, Real.logb_inv]
  rw [hlog]
  have hexp : ((0 : ℝ) - 20 * -Real.logb 10 2) / 20 = Real.logb 10 2 := by
    ring
  rw [hexp, Real.rpow_logb (by norm_num) (by norm_num) (by norm_num)]

lemma logb_ten_tenth : Real.logb 10 ((1 : ℝ) / 10) = -1 := by
  rw [show (1 : ℝ) / 10 = (10 : ℝ)⁻¹ by norm_num, Real.logb_inv,
    Real.logb_self_eq_one (by norm_num)]

lemma gain_neg20 : gain_linear (-20) [(1 / 10 : ℝ)] = 1 := by
  unfold gain_linear
  rw [rms_single, abs_of_pos (by norm_num : (0 : ℝ) < 1 / 10), logb_ten_tenth]
  have hexp : ((-20 : ℝ) - 20 * (-1)) / 20 = 0 := by norm_num
  rw [hexp, Real.rpow_zero]

/-- Claim C1, counterexample: with normalization enabled at `target_db = 0`
and the non-silent buffer `[1, 0, 0, 0]` (RMS 1/2, so gain 2 and post-gain
peak 2 > 0.95), the clip-avoidance rescale pins the output to
`[0.95, 0, 0, 0]` with RMS 0.475 ≈ -6.5 dB — more than 0.5 dB away from the
configured target, refuting the claimed RMS invariant. -/
theorem normalize_volume_rms_claim_cex :
    cfgNormZero.normalization.enabled = true ∧
    0 < rms [(1 : ℝ), 0, 0, 0] ∧
    ¬ (|20 * Real.logb 10 (rms (normalize_volume cfgNormZero [(1 : ℝ), 0, 0, 0]
          cfgNormZero.normalization.target_db)) -
        cfgNormZero.normalization.target_db| ≤ 0.5) := by
  have hr : 0 < rms [(1 : ℝ), 0, 0, 0] := by
    rw [rms_xs0]
    norm_num
  refine ⟨rfl, hr, ?_⟩
  have htdb : cfgNormZero.normalization.target_db = 0 := rfl
  have hen : cfgNormZero.normalization.enabled = true := rfl
  rw [htdb]
  have hnv : normalize_volume cfgNormZero [(1 : ℝ), 0, 0, 0] 0 =
      normalize_core 0 [(1 : ℝ), 0, 0, 0] := by
    simp [normalize_volume, guarded_stage, hen, tryStage, htdb]
  rw [hnv]
  have hcore := normalize_core_eq 0 [(1 : ℝ), 0, 0, 0] hr
  rw [gain_xs0] at hcore
  have hpeakN : peak ([(1 : ℝ), 0, 0, 0].map fun x => x * 2) = 2 := by
    rw [peak_map_mul _ _ (by norm_num : (0 : ℝ) ≤ 2), peak_xs0, one_mul]
  rw [hpeakN, if_pos (by norm_num : (0.95 : ℝ) < 2)] at hcore
  rw [hcore]
  have hrmsOut : rms (([(1 : ℝ), 0, 0, 0].map fun x => x * 2).map
      fun x => x * (0.95 / 2)) = 19 / 40 := by
    rw [rms_map_mul, rms_map_mul, rms_xs0,
      abs_of_pos (by norm_num : (0 : ℝ) < 2),
      abs_of_pos (by norm_num : (0 : ℝ) < 0.95 / 2)]
    norm_num
  rw [hrmsOut, sub_zero]
  intro habs
  have hb := abs_le.mp habs
  have h1 : Real.logb 10 ((19 : ℝ) / 40) ≤ Real.logb 10 (1 / 2) :=
    Real.logb_le_logb_of_le (by norm_num) (by norm_num) (by norm_num)
  have h2 : Real.logb 10 ((1 : ℝ) / 2) = -Real.logb 10 2 := by
    rw [show (1 : ℝ) / 2 = (2 : ℝ)⁻¹ by norm_num, Real.logb_inv]
  have h3 := logb_ten_two_gt
  rw [h2] at h1
  linarith [hb.1]

/-- Claim C1, witness for the amended theorem: the buffer `[0.1]` under the
-20 dB configuration — the gain is exactly 1, no rescale fires, the peak
stays at 0.1 ≤ 0.95 and the output RMS is exactly -20 dB.  (The `target_db`
argument is deliberately -18 to exercise the configured-value overwrite.) -/
theorem normalize_volume_rms_peak_amended_witness :
    cfgNormNeg20.normalization.enabled = true ∧
    0 < rms [(1 / 10 : ℝ)] ∧
    peak (normalize_volume cfgNormNeg20 [(1 / 10 : ℝ)] (-18)) ≤ 0.95 ∧
    20 * Real.logb 10 (rms (normalize_volume cfgNormNeg20 [(1 / 10 : ℝ)] (-18))) =
      -20 := by
  have hr : 0 < rms [(1 / 10 : ℝ)] := by
    rw [rms_single, abs_of_pos (by norm_num : (0 : ℝ) < 1 / 10)]
    norm_num
  have h := normalize_volume_rms_peak_amended cfgNormNeg20 [(1 / 10 : ℝ)] (-18) rfl hr
  have htdb : cfgNormNeg20.normalization.target_db = -20 := rfl
  have hpk : peak ([(1 / 10 : ℝ)].map fun x =>
      x * gain_linear cfgNormNeg20.normalization.target_db [(1 / 10 : ℝ)]) ≤ 0.95 := by
    rw [htdb, gain_neg20, peak_map_mul _ _ (by norm_num : (0 : ℝ) ≤ 1),
      peak_cons, peak_nil, abs_of_pos (by norm_num : (0 : ℝ) < 1 / 10),
      max_eq_left (by norm_num : (0 : ℝ) ≤ 1 / 10)]
    norm_num
  have h2 := h.2 hpk
  rw [htdb] at h2
  exact ⟨rfl, hr, h.1, h2⟩

/-- Claim C9, counterexample: decoding divides by the format's maximum
positive integer (32767 for 16-bit), so the most negative representable
16-bit sample -32768 maps to -32768/32767, which is strictly below -1.0 —
refuting "maps to a value no less than -1.0". -/
theorem load_normalize_min_int_cex :
    load_normalize 16 [(-32768 : ℤ)] = [load_normalize_sample 16 (-32768)] ∧
    load_normalize_sample 16 (-32768) < -1 := by
  refine ⟨rfl, ?_⟩
  norm_num [load_normalize_sample, pcm_max]

/-- Claim C9, amended: with `M = 2^(bits-1) - 1` the format's maximum
magnitude, every representable sample `s ∈ [-(M+1), M]` decodes into
`[-(M+1)/M, 1]`; every sample `s ≥ -M` decodes into `[-1, 1]`, and only the
single most negative integer decodes slightly below -1. -/
theorem load_normalize_range_amended (bits : ℕ) (s : ℤ) (hb : 2 ≤ bits)
    (hlo : -(2 ^ (bits - 1)) ≤ s) (hhi : s ≤ 2 ^ (bits - 1) - 1) :
    load_normalize_sample bits s ≤ 1 ∧
    -((2 ^ (bits - 1) : ℚ) / (2 ^ (bits - 1) - 1)) ≤ load_normalize_sample bits s ∧
    (-(2 ^ (bits - 1) - 1) ≤ s → -1 ≤ load_normalize_sample bits s) := by
  have hM2 : (2 : ℚ) ≤ 2 ^ (bits - 1) := by
    calc (2 : ℚ) = 2 ^ 1 := (pow_one 2).symm
    _ ≤ 2 ^ (bits - 1) := by
        apply pow_le_pow_right₀ (by norm_num)
        omega
  have hM : (0 : ℚ) < 2 ^ (bits - 1) - 1 := by linarith
  have hcast : (pcm_max bits : ℚ) = 2 ^ (bits - 1) - 1 := by
    unfold pcm_max
    push_cast
    ring
  unfold load_normalize_sample
  rw [hcast]
  refine ⟨?_, ?_, ?_⟩
  · rw [div_le_one hM]
    have h5 : (s : ℚ) ≤ ((2 ^ (bits - 1) - 1 : ℤ) : ℚ) := by exact_mod_cast hhi
    push_cast at h5
    linarith
  · rw [neg_div', div_le_div_iff_of_pos_right hM]
    have h5 : ((-(2 ^ (bits - 1)) : ℤ) : ℚ) ≤ (s : ℚ) := by exact_mod_cast hlo
    push_cast at h5
    linarith
  · intro hs
    have h1 : (-1 : ℚ) = -(2 ^ (bits - 1) - 1) / (2 ^ (bits - 1) - 1) := by
      rw [neg_div, div_self hM.ne']
    rw [h1, div_le_div_iff_of_pos_right hM]
    have h5 : ((-(2 ^ (bits - 1) - 1) : ℤ) : ℚ) ≤ (s : ℚ) := by exact_mod_cast hs
    push_cast at h5
    linarith

/-- Claim C9, witness for the amended theorem: the 16-bit bounds at the most
negative sample. -/
theorem load_normalize_range_amended_witness :
    load_normalize_sample 16 (-32768) ≤ 1 ∧
    -((2 ^ (16 - 1) : ℚ) / (2 ^ (16 - 1) - 1)) ≤ load_normalize_sample 16 (-32768) ∧
    (-(2 ^ (16 - 1) - 1) ≤ (-32768 : ℤ) → -1 ≤ load_normalize_sample 16 (-32768)) :=
  load_normalize_range_amended 16 (-32768) (by norm_num) (by norm_num) (by norm_num)

/-- Claim C10: `normalize_volume` does not depend on its `target_db`
argument — line 157 overwrites the parameter with the configured
`normalization.target_db` before any use, so calls with any two argument
values (including the explicit configured value passed by
`process_pipeline`, line 328) return identical results. -/
theorem normalize_volume_target_db_irrelevant (cfg : RefinementConfig)
    (audio_data : List ℝ) (t1 t2 : ℝ) :
    normalize_volume cfg audio_data t1 = normalize_volume cfg audio_data t2 := rfl

/-- Claim C6: when a stage's try-body raises (modelled by the body returning
`none`), the stage returns its original input buffer unchanged — stated for
the shared guard-plus-fallback skeleton of the three refinement stages and
instantiated on `reduce_noise`, whose body is the external noise-reduction
call. -/
theorem stage_exception_falls_back :
    (∀ (enabled : Bool) (body : List ℝ → Option (List ℝ)) (audio_data : List ℝ),
      body audio_data = none → guarded_stage enabled body audio_data = audio_data) ∧
    (∀ (nrF : List ℝ → ℕ → ℝ → Option (List ℝ)) (cfg : RefinementConfig)
      (audio_data : List ℝ) (sample_rate : ℕ),
      nrF audio_data sample_rate cfg.noise_reduction.strength = none →
      reduce_noise nrF cfg audio_data sample_rate = audio_data) := by
  have h1 : ∀ (enabled : Bool) (body : List ℝ → Option (List ℝ)) (audio_data : List ℝ),
      body audio_data = none → guarded_stage enabled body audio_data = audio_data := by
    intro enabled body audio_data hb
    cases enabled <;> simp [guarded_stage, tryStage, hb]
  exact ⟨h1, fun nrF cfg audio_data sample_rate hb => h1 _ _ _ hb⟩

/-- Claim C6, witness: a failing body and a failing external noise-reduction
call both degrade to the input buffer. -/
theorem stage_exception_falls_back_witness :
    guarded_stage true (fun _ => none) [(1 : ℝ), 2] = [(1 : ℝ), 2] ∧
    reduce_noise (fun _ _ _ => none) cfgNoise [(1 : ℝ), 2] 44100 = [(1 : ℝ), 2] :=
  ⟨stage_exception_falls_back.1 true (fun _ => none) [(1 : ℝ), 2] rfl,
   stage_exception_falls_back.2 (fun _ _ _ => none) cfgNoise [(1 : ℝ), 2] 44100 rfl⟩

/-- Claim C5: with noise reduction disabled, normalization disabled and both
enhancement flags false, the composition of the three refinement stages (the
pre-resample refined buffer) is the decoded input buffer, bit-identical. -/
theorem disabled_stages_identity (nrF : List ℝ → ℕ → ℝ → Option (List ℝ))
    (cfg : RefinementConfig) (audio_data : List ℝ) (sample_rate : ℕ)
    (h1 : cfg.noise_reduction.enabled = false)
    (h2 : cfg.normalization.enabled = false)
    (h3 : cfg.enhancement.compression = false)
    (h4 : cfg.enhancement.eq_boost = false) :
    refine_stages nrF cfg audio_data sample_rate = audio_data := by
  simp [refine_stages, reduce_noise, normalize_volume, enhance_voice,
    guarded_stage, h1, h2, h3, h4]

/-- Claim C5, witness: the all-disabled configuration on a concrete buffer. -/
theorem disabled_stages_identity_witness :
    refine_stages (fun _ _ _ => none) cfgAllOff [(1 : ℝ), 0.5, -0.2] 44100 =
      [(1 : ℝ), 0.5, -0.2] :=
  disabled_stages_identity (fun _ _ _ => none) cfgAllOff [(1 : ℝ), 0.5, -0.2] 44100
    rfl rfl rfl rfl

/-- Claim C4: on an all-zero (silent) buffer with normalization enabled,
`normalize_volume` returns the input unchanged — the RMS is zero, so the
zero-RMS branch returns before any division or logarithm is evaluated. -/
theorem normalize_volume_silent_identity (cfg : RefinementConfig)
    (audio_data : List ℝ) (target_db : ℝ)
    (hen : cfg.normalization.enabled = true)
    (hz : ∀ x ∈ audio_data, x = 0) :
    normalize_volume cfg audio_data target_db = audio_data := by
  simp [normalize_volume, guarded_stage, hen, tryStage, normalize_core,
    rms_eq_zero_of_forall_zero audio_data hz]

/-- Claim C4, witness: a concrete silent buffer under the -20 dB
normalization configuration. -/
theorem normalize_volume_silent_identity_witness :
    normalize_volume cfgNormNeg20 [(0 : ℝ), 0, 0] (-18) = [(0 : ℝ), 0, 0] :=
  normalize_volume_silent_identity cfgNormNeg20 [(0 : ℝ), 0, 0] (-18) rfl
    (by intro x hx; simp at hx; exact hx)

/-- Claim C3: with compression enabled, `enhance_voice` maps every sample
through the hard-knee compressor: samples with `|x| > 0.3` become
`sign(x) * (0.3 + (|x| - 0.3) / 3.0)`, samples with `|x| ≤ 0.3` are
unchanged, and above the threshold the output magnitude never exceeds the
input magnitude while the sign is preserved. -/
theorem compression_shape_and_bound (cfg : RefinementConfig)
    (audio_data : List ℝ) (sample_rate : ℕ)
    (hc : cfg.enhancement.compression = true) :
    enhance_voice cfg audio_data sample_rate = audio_data.map compress_sample ∧
    ∀ x : ℝ,
      (0.3 < |x| →
        compress_sample x = Real.sign x * (0.3 + (|x| - 0.3) / 3) ∧
        |compress_sample x| ≤ |x| ∧
        Real.sign (compress_sample x) = Real.sign x) ∧
      (|x| ≤ 0.3 → compress_sample x = x) := by
  constructor
  · simp [enhance_voice, guarded_stage, hc, tryStage, enhance_core]
  · intro x
    constructor
    · intro hx
      have heq : compress_sample x = Real.sign x * (0.3 + (|x| - 0.3) / 3) := by
        unfold compress_sample
        rw [if_pos hx]
      have hx0 : x ≠ 0 := by
        intro h0
        rw [h0, abs_zero] at hx
        norm_num at hx
      have hm : (0 : ℝ) < 0.3 + (|x| - 0.3) / 3 := by
        have h1 : (0 : ℝ) < |x| - 0.3 := by linarith
        linarith
      refine ⟨heq, ?_⟩
      rcases lt_trichotomy x 0 with hneg | hzero | hpos
      · have hs : Real.sign x = -1 := Real.sign_of_neg hneg
        have hval : compress_sample x = -(0.3 + (|x| - 0.3) / 3) := by
          rw [heq, hs]
          ring
        constructor
        · rw [hval, abs_neg, abs_of_pos hm]
          linarith
        · rw [hval, Real.sign_of_neg (by linarith : -(0.3 + (|x| - 0.3) / 3) < 0), hs]
      · exact absurd hzero hx0
      · have hs : Real.sign x = 1 := Real.sign_of_pos hpos
        have hval : compress_sample x = 0.3 + (|x| - 0.3) / 3 := by
          rw [heq, hs]
          ring
        constructor
        · rw [hval, abs_of_pos hm]
          linarith
        · rw [hval, Real.sign_of_pos hm, hs]
    · intro hx
      unfold compress_sample
      rw [if_neg (not_lt.mpr hx)]

/-- Claim C3, witness: the compression configuration on the sample 0.6,
which lies above the 0.3 threshold. -/
theorem compression_shape_and_bound_witness :
    enhance_voice cfgCompress [(0.6 : ℝ)] 44100 = [(0.6 : ℝ)].map compress_sample ∧
    |compress_sample (0.6 : ℝ)| ≤ |(0.6 : ℝ)| := by
  have h := compression_shape_and_bound cfgCompress [(0.6 : ℝ)] 44100 rfl
  have h6 : (0.3 : ℝ) < |(0.6 : ℝ)| := by
    rw [abs_of_pos (by norm_num : (0 : ℝ) < 0.6)]
    norm_num
  exact ⟨h.1, ((h.2 0.6).1 h6).2.1⟩

lemma empty_trim : "".trim = "" := by
  show ("".toSubstring.trim).toString = ""
  have h1 : "".toSubstring.trim = "".toSubstring := by
    simp [Substring.trim, String.toSubstring, Substring.takeWhileAux,
      Substring.takeRightWhileAux]
  rw [h1]
  rfl

lemma validate_text_input_invalid (text : String)
    (h : text.trim.length = 0 ∨ 5000 < text.trim.length) :
    ∃ e, validate_text_input text 1 5000 = Except.error e := by
  unfold validate_text_input
  by_cases he : text = ""
  · exact ⟨_, by rw [if_pos he]⟩
  · rw [if_neg he]
    rcases h with h | h
    · exact ⟨_, by rw [if_pos (by omega : text.trim.length < 1)]⟩
    · rw [if_neg (by omega : ¬ text.trim.length < 1), if_pos h]
      exact ⟨_, rfl⟩

lemma inner_invalid_error (env : PipelineEnv) (text : String)
    (voice_id output_name : Option String) (e : String)
    (hval : validate_text_input text 1 5000 = Except.error e) :
    ∃ e2, generate_refined_audio_inner env text voice_id output_name = Except.error e2 ∧
      ∀ (ti : String → Config → Except String Unit) (b : Bool)
        (f : String → String → Option String → Except String TTSGenMeta)
        (g : Config → String → String → Except String RefineMeta),
        generate_refined_audio_inner
          { env with tts_init := ti, validate_api_key := b, tts_generate := f, refine := g }
          text voice_id output_name = Except.error e2 := by
  unfold generate_refined_audio_inner
  rcases hc : env.load_config with e1 | config
  · exact ⟨e1, by simp [hc], fun ti b f g => by simp [hc]⟩
  · rcases hs : env.setup config with e1 | u
    · exact ⟨e1, by simp [hc, hs], fun ti b f g => by simp [hc, hs]⟩
    · rcases hk : env.load_env with e1 | api_key
      · exact ⟨e1, by simp [hc, hs, hk], fun ti b f g => by simp [hc, hs, hk]⟩
      · exact ⟨e, by simp [hc, hs, hk, hval], fun ti b f g => by simp [hc, hs, hk, hval]⟩

/-- Claim C7: for text whose post-trim length is 0 or greater than 5000
characters, text validation rejects the input, the top-level pipeline call
returns `success = false`, and the result is unchanged under arbitrary
replacement of the TTS-client construction, API-key validation, speech
generation and refinement collaborators — i.e. none of them is consulted. -/
theorem invalid_text_rejected_before_network (env : PipelineEnv) (text : String)
    (voice_id output_name : Option String)
    (h : text.trim.length = 0 ∨ 5000 < text.trim.length) :
    (∃ e, validate_text_input text 1 5000 = Except.error e) ∧
    (generate_refined_audio env text voice_id output_name).success = false ∧
    ∀ (ti : String → Config → Except String Unit) (b : Bool)
      (f : String → String → Option String → Except String TTSGenMeta)
      (g : Config → String → String → Except String RefineMeta),
      generate_refined_audio
        { env with tts_init := ti, validate_api_key := b, tts_generate := f, refine := g }
        text voice_id output_name =
      generate_refined_audio env text voice_id output_name := by
  obtain ⟨e, hval⟩ := validate_text_input_invalid text h
  obtain ⟨e2, hinner, hrepl⟩ := inner_invalid_error env text voice_id output_name e hval
  refine ⟨⟨e, hval⟩, ?_, ?_⟩
  · unfold generate_refined_audio
    rw [hinner]
    rfl
  · intro ti b f g
    unfold generate_refined_audio
    rw [hinner, hrepl ti b f g]

/-- Claim C7, witness: the empty text under the concrete environment, with
all network collaborators replaced by failing ones. -/
theorem invalid_text_rejected_before_network_witness :
    (generate_refined_audio envW "" none none).success = false ∧
    generate_refined_audio
      { envW with tts_init := fun _ _ => Except.error "down",
                  validate_api_key := false,
                  tts_generate := fun _ _ _ => Except.error "down",
                  refine := fun _ _ _ => Except.error "down" }
      "" none none =
    generate_refined_audio envW "" none none := by
  have h := invalid_text_rejected_before_network envW "" none none
    (Or.inl (by rw [empty_trim]; rfl))
  exact ⟨h.2.1, h.2.2 _ _ _ _⟩

lemma inner_ok_shape (env : PipelineEnv) (text : String)
    (voice_id output_name : Option String) (r : PipelineResult)
    (h : generate_refined_audio_inner env text voice_id output_name = Except.ok r) :
    r.success = true ∧ r.error = none := by
  unfold generate_refined_audio_inner at h
  simp only [] at h
  repeat' split at h
  all_goals first
    | (injection h with h2; subst h2; exact ⟨rfl, rfl⟩)
    | (injection h)

lemma generate_refined_audio_shape (env : PipelineEnv) (text : String)
    (voice_id output_name : Option String) :
    ((generate_refined_audio env text voice_id output_name).success = true ∧
      (generate_refined_audio env text voice_id output_name).error = none) ∨
    ((generate_refined_audio env text voice_id output_name).success = false ∧
      ∃ msg, (generate_refined_audio env text voice_id output_name).error =
        some ("Pipeline failed: " ++ msg)) := by
  rcases hinner : generate_refined_audio_inner env text voice_id output_name with e | r
  · right
    unfold generate_refined_audio
    rw [hinner]
    exact ⟨rfl, ⟨e, rfl⟩⟩
  · left
    unfold generate_refined_audio
    rw [hinner]
    exact inner_ok_shape env text voice_id output_name r hinner

/-- Claim C8: the public entry points present a pure result-type contract —
`generate_refined_audio` is a total function whose result either succeeds
with no error or fails with `success = false` and a descriptive
"Pipeline failed: ..." error string (every internal raise is converted by
the top-level handler), and `quick_generate` is exactly
`generate_refined_audio` with default settings. -/
theorem entry_points_result_contract (env : PipelineEnv) (text : String)
    (voice_id output_name : Option String) :
    (((generate_refined_audio env text voice_id output_name).success = true ∧
      (generate_refined_audio env text voice_id output_name).error = none) ∨
     ((generate_refined_audio env text voice_id output_name).success = false ∧
      ∃ msg, (generate_refined_audio env text voice_id output_name).error =
        some ("Pipeline failed: " ++ msg))) ∧
    quick_generate env text voice_id = generate_refined_audio env text voice_id none :=
  ⟨generate_refined_audio_shape env text voice_id output_name, rfl⟩

end Arcads
